import Mathlib

/-!
# Verification of the poly_ab arbitrage engine core

Shallow embedding of the Rust sources under `rust-core/src` (engine state,
trio evaluator, dirty-check cache, market-structure builder, executor
validator and order preparation), together with theorems settling the
specification claims about them.

`f64` values are modelled by the type `F` below: NaN, signed infinity, or an
exact rational (rounding of finite arithmetic is not modelled; all claim
inputs are small decimal fractions where this is immaterial).  `HashMap`s are
modelled as association lists with first-match lookup and overwrite-or-append
insertion.  Clock reads (`SystemTime::now`) are threaded as explicit `now_ms`
parameters.  Random salts are threaded as an explicit salt oracle.
-/

set_option maxRecDepth 10000

/-- Model of an IEEE-754 `f64`: NaN, infinity (`true` = positive), or an exact
finite rational. -/
inductive F where
  | nan : F
  | inf : Bool → F
  | fin : ℚ → F
deriving DecidableEq

def F.isNan : F → Bool
  | .nan => true
  | _ => false

/-- Rust `f64::is_finite`. -/
def F.isFinite : F → Bool
  | .fin _ => true
  | _ => false

def F.neg : F → F
  | .nan => .nan
  | .inf s => .inf (!s)
  | .fin q => .fin (-q)

/-- IEEE addition (finite arithmetic exact). -/
def F.add : F → F → F
  | .nan, _ => .nan
  | _, .nan => .nan
  | .inf s, .inf t => if s = t then .inf s else .nan
  | .inf s, .fin _ => .inf s
  | .fin _, .inf t => .inf t
  | .fin a, .fin b => .fin (a + b)

def F.sub (x y : F) : F := F.add x (F.neg y)

/-- IEEE multiplication. -/
def F.mul : F → F → F
  | .nan, _ => .nan
  | _, .nan => .nan
  | .inf s, .inf t => .inf (s == t)
  | .inf s, .fin b => if b = 0 then .nan else .inf (s == decide (0 < b))
  | .fin a, .inf t => if a = 0 then .nan else .inf (t == decide (0 < a))
  | .fin a, .fin b => .fin (a * b)

/-- IEEE division: a nonzero finite value divided by (positive) zero is a
signed infinity, `0/0` is NaN. -/
def F.div : F → F → F
  | .nan, _ => .nan
  | _, .nan => .nan
  | .inf _, .inf _ => .nan
  | .inf s, .fin b => .inf (s == decide (0 ≤ b))
  | .fin _, .inf _ => .fin 0
  | .fin a, .fin b =>
      if b = 0 then (if a = 0 then .nan else .inf (decide (0 < a)))
      else .fin (a / b)

/-- IEEE `<=` (false whenever either side is NaN). -/
def F.le : F → F → Bool
  | .nan, _ => false
  | _, .nan => false
  | .inf s, .inf t => !s || t
  | .inf s, .fin _ => !s
  | .fin _, .inf t => t
  | .fin a, .fin b => decide (a ≤ b)

/-- IEEE `<` (false whenever either side is NaN). -/
def F.lt : F → F → Bool
  | .nan, _ => false
  | _, .nan => false
  | .inf s, .inf t => !s && t
  | .inf s, .fin _ => !s
  | .fin _, .inf t => t
  | .fin a, .fin b => decide (a < b)

/-- IEEE `==` (false whenever either side is NaN). -/
def F.beq : F → F → Bool
  | .fin a, .fin b => decide (a = b)
  | .inf s, .inf t => s == t
  | _, _ => false

def F.ge (x y : F) : Bool := F.le y x

def F.gt (x y : F) : Bool := F.lt y x

/-- Rust `f64::max` (ignores a NaN operand). -/
def F.fmax : F → F → F
  | .nan, y => y
  | x, .nan => x
  | x, y => if F.le x y then y else x

/-- Rust `f64::min` (ignores a NaN operand). -/
def F.fmin : F → F → F
  | .nan, y => y
  | x, .nan => x
  | x, y => if F.le x y then x else y

/-- Rounding half away from zero, as `f64::round` does. -/
def ratRoundAway (q : ℚ) : ℤ := if 0 ≤ q then ⌊q + 1/2⌋ else -⌊-q + 1/2⌋

/-- Rust `f64::round`. -/
def F.roundF : F → F
  | .nan => .nan
  | .inf s => .inf s
  | .fin q => .fin (ratRoundAway q)

/-- Rust saturating `as u64` cast on an `f64`. -/
def F.toU64 : F → Nat
  | .nan => 0
  | .inf s => if s then 2 ^ 64 - 1 else 0
  | .fin q => if q < 0 then 0 else min (2 ^ 64 - 1) ⌊q⌋.toNat

-- =============================================================================
-- engine/state.rs — PriceSlot, PriceTable, EngineConfig, TrioState
-- =============================================================================

/-- `PriceSlot` from `engine/state.rs`. -/
structure PriceSlot where
  best_bid : F
  best_ask : F
  best_bid_size : F
  best_ask_size : F
  timestamp_ms : Int
deriving DecidableEq

/-- `PriceSlot::default()`: NaN bid/ask, zero sizes, zero timestamp. -/
def PriceSlot.deflt : PriceSlot :=
  { best_bid := .nan, best_ask := .nan, best_bid_size := .fin 0,
    best_ask_size := .fin 0, timestamp_ms := 0 }

/-- Association-list lookup (first match), modelling `HashMap::get`. -/
def lookupA {κ α : Type} [DecidableEq κ] : List (κ × α) → κ → Option α
  | [], _ => none
  | (k, v) :: rest, key => if k = key then some v else lookupA rest key

/-- Association-list overwrite-or-append, modelling `HashMap::insert`. -/
def insertA {κ α : Type} [DecidableEq κ] : List (κ × α) → κ → α → List (κ × α)
  | [], key, v => [(key, v)]
  | (k, w) :: rest, key, v =>
      if k = key then (k, v) :: rest else (k, w) :: insertA rest key v

/-- Modify the first entry with the given key, if present,
modelling `HashMap::get_mut`. -/
def updateFirstA {κ α : Type} [DecidableEq κ] : List (κ × α) → κ → (α → α) → List (κ × α)
  | [], _, _ => []
  | (k, v) :: rest, key, f =>
      if k = key then (k, f v) :: rest else (k, v) :: updateFirstA rest key f

/-- `HashMap::entry(key).or_default().push(x)` for vector-valued maps. -/
def pushA {κ α : Type} [DecidableEq κ] (l : List (κ × List α)) (key : κ) (x : α) :
    List (κ × List α) :=
  match lookupA l key with
  | some xs => insertA l key (xs ++ [x])
  | none => insertA l key [x]

/-- `PriceTable` from `engine/state.rs`. -/
structure PriceTable where
  slots : List PriceSlot
  token_to_slot : List (String × Nat)
deriving DecidableEq

def PriceTable.new : PriceTable := { slots := [], token_to_slot := [] }

/-- `PriceTable::alloc_slot`: return the existing slot for the token or append
a fresh default slot. -/
def PriceTable.alloc_slot (pt : PriceTable) (token_id : String) : PriceTable × Nat :=
  match lookupA pt.token_to_slot token_id with
  | some slot => (pt, slot)
  | none =>
      let slot := pt.slots.length
      ({ slots := pt.slots ++ [PriceSlot.deflt],
         token_to_slot := insertA pt.token_to_slot token_id slot }, slot)

/-- `PriceTable::update`: overwrite bid/ask/timestamp, keep sizes when absent. -/
def PriceTable.update (pt : PriceTable) (slot : Nat) (bid ask : F)
    (bid_size ask_size : Option F) (ts : Int) : PriceTable :=
  { pt with
    slots := pt.slots.set slot
      { best_bid := bid, best_ask := ask,
        best_bid_size := (pt.slots.getD slot PriceSlot.deflt).best_bid_size |>
          (fun old => match bid_size with | some bs => bs | none => old),
        best_ask_size := (pt.slots.getD slot PriceSlot.deflt).best_ask_size |>
          (fun old => match ask_size with | some a => a | none => old),
        timestamp_ms := ts } }

/-- `PriceTable::get` (in-range access in all claim scenarios). -/
def PriceTable.get (pt : PriceTable) (slot : Nat) : PriceSlot :=
  pt.slots.getD slot PriceSlot.deflt

/-- `EngineConfig` from `engine/state.rs`. -/
structure EngineConfig where
  min_profit_bps : F
  min_profit_abs : F
  cooldown_ms : Int
deriving DecidableEq

/-- `TrioState` as constructed by `engine/engine.rs::initialize_trio_states`. -/
structure TrioState where
  parent_lower_idx : Nat
  parent_upper_idx : Nat
  range_idx : Nat
  lower_yes_slot : Nat
  upper_no_slot : Nat
  range_no_slot : Nat
  lower_yes_token : String
  upper_no_token : String
  range_no_token : String
  last_emitted_buy_ms : Int
  last_emitted_unbundle_ms : Int
  last_emitted_bundle_ms : Int
deriving DecidableEq

-- =============================================================================
-- engine/trio_evaluator.rs — calc_trio_profit_only
-- =============================================================================

/-- `TrioProfit` from `engine/trio_evaluator.rs`. -/
structure TrioProfit where
  total_ask : F
  total_bid : F
  profit_abs : F
  profit_bps : F
  payout : F
deriving DecidableEq

/-- `calc_trio_profit_only` from `engine/trio_evaluator.rs`: NaN guard, then
`total_ask`, `profit = 2 - total_ask`, `bps = profit / total_ask * 10000`,
threshold test. -/
def calc_trio_profit_only (trio : TrioState) (pt : PriceTable) (cfg : EngineConfig) :
    Option TrioProfit :=
  let ly := pt.get trio.lower_yes_slot
  let un := pt.get trio.upper_no_slot
  let rn := pt.get trio.range_no_slot
  if ly.best_ask.isNan || un.best_ask.isNan || rn.best_ask.isNan
      || ly.best_bid.isNan || un.best_bid.isNan || rn.best_bid.isNan then
    none
  else
    let payout : F := .fin 2
    let total_ask := F.add (F.add ly.best_ask un.best_ask) rn.best_ask
    let total_bid := F.add (F.add ly.best_bid un.best_bid) rn.best_bid
    let profit_buy := F.sub payout total_ask
    let profit_bps_buy := F.mul (F.div profit_buy total_ask) (.fin 10000)
    if F.ge profit_buy cfg.min_profit_abs && F.ge profit_bps_buy cfg.min_profit_bps then
      some { total_ask := total_ask, total_bid := total_bid,
             profit_abs := profit_buy, profit_bps := profit_bps_buy, payout := payout }
    else
      none

-- =============================================================================
-- Claim fixtures (from the repository's tests / spec scenarios)
-- =============================================================================

/-- Demo trio, slots 0/1/2 (as in the trio evaluator tests). -/
def trioDemo : TrioState :=
  { parent_lower_idx := 0, parent_upper_idx := 1, range_idx := 0,
    lower_yes_slot := 0, upper_no_slot := 1, range_no_slot := 2,
    lower_yes_token := "ly_token", upper_no_token := "un_token",
    range_no_token := "rn_token",
    last_emitted_buy_ms := 0, last_emitted_unbundle_ms := 0,
    last_emitted_bundle_ms := 0 }

def mkSlot (bid ask : ℚ) : PriceSlot :=
  { best_bid := .fin bid, best_ask := .fin ask, best_bid_size := .fin 100,
    best_ask_size := .fin 100, timestamp_ms := 1 }

/-- Spec scenario 1 price table: asks 0.60 / 0.50 / 0.80. -/
def ptDemo : PriceTable :=
  { slots := [mkSlot 0.62 0.60, mkSlot 0.52 0.50, mkSlot 0.82 0.80],
    token_to_slot := [("ly_token", 0), ("un_token", 1), ("rn_token", 2)] }

/-- All three asks zero (non-NaN bids) — the triangle divide-by-zero case. -/
def ptZero : PriceTable :=
  { slots := [mkSlot 0.5 0, mkSlot 0.5 0, mkSlot 0.5 0],
    token_to_slot := [("ly_token", 0), ("un_token", 1), ("rn_token", 2)] }

def cfgDemo : EngineConfig :=
  { min_profit_bps := .fin 30, min_profit_abs := .fin 0.005, cooldown_ms := 3000 }

-- =============================================================================
-- C1 — calc_trio_profit_only functional correctness
-- =============================================================================

/-- `true` iff any of the six triangle-slot prices is NaN. -/
def trioNanFlag (trio : TrioState) (pt : PriceTable) : Bool :=
  (pt.get trio.lower_yes_slot).best_ask.isNan
    || (pt.get trio.upper_no_slot).best_ask.isNan
    || (pt.get trio.range_no_slot).best_ask.isNan
    || (pt.get trio.lower_yes_slot).best_bid.isNan
    || (pt.get trio.upper_no_slot).best_bid.isNan
    || (pt.get trio.range_no_slot).best_bid.isNan

/-- Sum of the three triangle best asks. -/
def trioAskSum (trio : TrioState) (pt : PriceTable) : F :=
  F.add (F.add (pt.get trio.lower_yes_slot).best_ask
      (pt.get trio.upper_no_slot).best_ask)
    (pt.get trio.range_no_slot).best_ask

/-- Sum of the three triangle best bids. -/
def trioBidSum (trio : TrioState) (pt : PriceTable) : F :=
  F.add (F.add (pt.get trio.lower_yes_slot).best_bid
      (pt.get trio.upper_no_slot).best_bid)
    (pt.get trio.range_no_slot).best_bid

/-- The `TrioProfit` record the claim says is returned: `total_ask` the sum of
the three asks, `profit = 2 - total_ask`, `bps = profit / total_ask * 10000`. -/
def trioClaimProfit (trio : TrioState) (pt : PriceTable) : TrioProfit :=
  { total_ask := trioAskSum trio pt,
    total_bid := trioBidSum trio pt,
    profit_abs := F.sub (.fin 2) (trioAskSum trio pt),
    profit_bps := F.mul (F.div (F.sub (.fin 2) (trioAskSum trio pt)) (trioAskSum trio pt))
      (.fin 10000),
    payout := .fin 2 }

theorem F.isNan_fin (q : ℚ) : (F.fin q).isNan = false := rfl

theorem F.isNan_inf (s : Bool) : (F.inf s).isNan = false := rfl

/-- The thresholds test of the triangle calc (`meets_buy` in the source). -/
def trioMeets (trio : TrioState) (pt : PriceTable) (cfg : EngineConfig) : Bool :=
  F.ge (F.sub (.fin 2) (trioAskSum trio pt)) cfg.min_profit_abs
    && F.ge (F.mul (F.div (F.sub (.fin 2) (trioAskSum trio pt)) (trioAskSum trio pt))
        (.fin 10000)) cfg.min_profit_bps

/-- Helper: the triangle calc as a two-level conditional. -/
theorem calc_trio_profit_only_eq (trio : TrioState) (pt : PriceTable) (cfg : EngineConfig) :
    calc_trio_profit_only trio pt cfg =
      if trioNanFlag trio pt then none
      else if trioMeets trio pt cfg then some (trioClaimProfit trio pt) else none := rfl

/-- C1: if any of the six triangle prices is NaN, `calc_trio_profit_only`
returns `None`; otherwise it returns `Some` of exactly the record with
`total_ask` the sum of the three best asks, `profit = 2 - total_ask` and
`bps = profit / total_ask * 10000` if and only if `profit >= min_profit_abs`
and `bps >= min_profit_bps`. -/
theorem c1_calc_trio_profit_only_spec (trio : TrioState) (pt : PriceTable)
    (cfg : EngineConfig) :
    (trioNanFlag trio pt = true → calc_trio_profit_only trio pt cfg = none)
    ∧ (trioNanFlag trio pt = false →
        (calc_trio_profit_only trio pt cfg = some (trioClaimProfit trio pt)
          ↔ (F.ge (F.sub (.fin 2) (trioAskSum trio pt)) cfg.min_profit_abs = true
             ∧ F.ge (F.mul (F.div (F.sub (.fin 2) (trioAskSum trio pt)) (trioAskSum trio pt))
                 (.fin 10000)) cfg.min_profit_bps = true))
        ∧ ∀ r, calc_trio_profit_only trio pt cfg = some r → r = trioClaimProfit trio pt) := by
  constructor
  · intro h
    rw [calc_trio_profit_only_eq, h]
    rfl
  · intro h
    rw [calc_trio_profit_only_eq, h]
    simp only [Bool.false_eq_true, if_false]
    by_cases htm : trioMeets trio pt cfg = true
    · rw [if_pos htm]
      rw [trioMeets, Bool.and_eq_true] at htm
      exact ⟨⟨fun _ => htm, fun _ => rfl⟩, fun r hr => (Option.some.inj hr).symm⟩
    · rw [if_neg htm]
      rw [trioMeets, Bool.and_eq_true] at htm
      exact ⟨⟨fun hs => Option.noConfusion hs, fun hab => absurd ⟨hab.1, hab.2⟩ htm⟩,
        fun r hr => Option.noConfusion hr⟩

/-- Witness for C1 at the spec's scenario-1 prices (asks 0.60/0.50/0.80):
the calc emits `total_ask = 1.9`, `profit = 0.1`, `bps = 10000/19 ≈ 526`. -/
theorem c1_witness :
    trioNanFlag trioDemo ptDemo = false ∧
    calc_trio_profit_only trioDemo ptDemo cfgDemo =
      some { total_ask := .fin (19/10), total_bid := .fin (49/25),
             profit_abs := .fin (1/10), profit_bps := .fin (10000/19),
             payout := .fin 2 } := by
  refine ⟨rfl, ?_⟩
  have h := ((c1_calc_trio_profit_only_spec trioDemo ptDemo cfgDemo).2 rfl).1.mpr ?_
  · rw [h]
    norm_num [trioClaimProfit, trioAskSum, trioBidSum, trioDemo, ptDemo, PriceTable.get,
      mkSlot, F.sub, F.add, F.neg, F.mul, F.div, List.getD]
  · constructor <;>
      norm_num [trioAskSum, trioDemo, ptDemo, cfgDemo, PriceTable.get, mkSlot,
        F.ge, F.le, F.sub, F.add, F.neg, F.mul, F.div, List.getD]

-- =============================================================================
-- C2 — triangle total_ask == 0: no divide-by-zero guard in the source
-- =============================================================================

/-- C2 counterexample: with all three triangle asks equal to `0.0` (non-NaN
bids) and the default config (`min_profit_bps = 30 > 0`),
`calc_trio_profit_only` does NOT return `None`: the division by zero produces
`bps = +inf`, which passes the bps threshold. -/
theorem c2_counterexample :
    F.lt (.fin 0) cfgDemo.min_profit_bps = true ∧
    calc_trio_profit_only trioDemo ptZero cfgDemo =
      some { total_ask := .fin 0, total_bid := .fin (3/2), profit_abs := .fin 2,
             profit_bps := .inf true, payout := .fin 2 } := by
  constructor
  · norm_num [cfgDemo, F.lt]
  · rw [calc_trio_profit_only_eq]
    have hnan : trioNanFlag trioDemo ptZero = false := rfl
    rw [hnan]
    simp only [Bool.false_eq_true, if_false]
    have hm : trioMeets trioDemo ptZero cfgDemo = true := by
      norm_num [trioMeets, trioAskSum, trioDemo, ptZero, cfgDemo, PriceTable.get, mkSlot,
        F.ge, F.le, F.sub, F.add, F.neg, F.mul, F.div, List.getD]
    rw [if_pos hm]
    norm_num [trioClaimProfit, trioAskSum, trioBidSum, trioDemo, ptZero, PriceTable.get,
      mkSlot, F.sub, F.add, F.neg, F.mul, F.div, List.getD]

/-- C2 amended: when all three triangle asks are `0.0` (and the bids are not
NaN), there is no zero-guard in `calc_trio_profit_only`: `profit = 2` and
`bps = +inf`, so for any finite `min_profit_bps` (in particular any positive
one) the opportunity is ACCEPTED whenever `min_profit_abs ≤ 2`, i.e. the calc
returns `Some` with `profit_bps = +inf` (the `bps = 0` divide-by-zero guard
exists only in the range evaluator). -/
theorem c2_zero_ask_accepted (trio : TrioState) (pt : PriceTable) (cfg : EngineConfig)
    (a b : ℚ)
    (h1 : (pt.get trio.lower_yes_slot).best_ask = .fin 0)
    (h2 : (pt.get trio.upper_no_slot).best_ask = .fin 0)
    (h3 : (pt.get trio.range_no_slot).best_ask = .fin 0)
    (h4 : (pt.get trio.lower_yes_slot).best_bid.isNan = false)
    (h5 : (pt.get trio.upper_no_slot).best_bid.isNan = false)
    (h6 : (pt.get trio.range_no_slot).best_bid.isNan = false)
    (ha : cfg.min_profit_abs = .fin a) (ha2 : a ≤ 2)
    (hb : cfg.min_profit_bps = .fin b) :
    calc_trio_profit_only trio pt cfg =
      some { total_ask := .fin 0, total_bid := trioBidSum trio pt,
             profit_abs := .fin 2, profit_bps := .inf true, payout := .fin 2 } := by
  rw [calc_trio_profit_only_eq]
  have hnan : trioNanFlag trio pt = false := by
    simp [trioNanFlag, h1, h2, h3, h4, h5, h6, F.isNan_fin]
  rw [hnan]
  simp only [Bool.false_eq_true, if_false]
  have hsum : trioAskSum trio pt = .fin 0 := by
    simp [trioAskSum, h1, h2, h3, F.add]
  have hm : trioMeets trio pt cfg = true := by
    simp [trioMeets, hsum, ha, hb, F.ge, F.le, F.sub, F.add, F.neg, F.mul, F.div, ha2]
  rw [if_pos hm]
  simp [trioClaimProfit, hsum, F.sub, F.add, F.neg, F.mul, F.div]

/-- Witness for the amended C2 at the all-zero-ask table. -/
theorem c2_witness :
    calc_trio_profit_only trioDemo ptZero cfgDemo =
      some { total_ask := .fin 0, total_bid := trioBidSum trioDemo ptZero,
             profit_abs := .fin 2, profit_bps := .inf true, payout := .fin 2 } := by
  refine c2_zero_ask_accepted trioDemo ptZero cfgDemo 0.005 30 rfl rfl rfl rfl rfl rfl rfl ?_ rfl
  norm_num

-- =============================================================================
-- Association-list lemmas (shared helpers)
-- =============================================================================

theorem lookupA_updateFirstA_self {κ α : Type} [DecidableEq κ] (l : List (κ × α)) (k : κ)
    (f : α → α) : lookupA (updateFirstA l k f) k = (lookupA l k).map f := by
  induction l with
  | nil => rfl
  | cons p rest ih =>
      obtain ⟨k', v⟩ := p
      by_cases hk : k' = k
      · simp [updateFirstA, lookupA, hk]
      · simp [updateFirstA, lookupA, hk, ih]

theorem lookupA_updateFirstA_ne {κ α : Type} [DecidableEq κ] (l : List (κ × α)) (k k' : κ)
    (f : α → α) (h : k ≠ k') : lookupA (updateFirstA l k f) k' = lookupA l k' := by
  induction l with
  | nil => rfl
  | cons p rest ih =>
      obtain ⟨k0, v⟩ := p
      by_cases hk : k0 = k
      · subst hk
        simp [updateFirstA, lookupA, h]
      · simp only [updateFirstA, if_neg hk]
        by_cases hk' : k0 = k'
        · simp [lookupA, hk']
        · simp [lookupA, hk', ih]

theorem updateFirstA_of_none {κ α : Type} [DecidableEq κ] (l : List (κ × α)) (k : κ)
    (f : α → α) (h : lookupA l k = none) : updateFirstA l k f = l := by
  induction l with
  | nil => rfl
  | cons p rest ih =>
      obtain ⟨k', v⟩ := p
      by_cases hk : k' = k
      · simp [lookupA, hk] at h
      · simp only [lookupA, if_neg hk] at h
        simp [updateFirstA, hk, ih h]

theorem updateFirstA_of_fixed {κ α : Type} [DecidableEq κ] (l : List (κ × α)) (k : κ)
    (f : α → α) (h : ∀ v, lookupA l k = some v → f v = v) : updateFirstA l k f = l := by
  induction l with
  | nil => rfl
  | cons p rest ih =>
      obtain ⟨k', v⟩ := p
      by_cases hk : k' = k
      · have hv : f v = v := h v (by simp [lookupA, hk])
        simp [updateFirstA, hk, hv]
      · simp only [updateFirstA, if_neg hk]
        have : updateFirstA rest k f = rest := by
          refine ih fun v hv => h v ?_
          simpa [lookupA, hk] using hv
        rw [this]

-- =============================================================================
-- executor/validator.rs — constants, slippage, balance, minted assets
-- =============================================================================

def MAX_PRICE : ℚ := 0.99

def MIN_PRICE : ℚ := 0.01

def SLIPPAGE_EXTREME_THRESHOLD_HIGH : ℚ := 0.96

def SLIPPAGE_EXTREME_THRESHOLD_LOW : ℚ := 0.04

def NORMAL_SPREAD : ℚ := 0.01

def EXTREME_SPREAD : ℚ := 0.001

/-- USDC decimals: `1_000_000.0`. -/
def DECIMALS : ℚ := 1000000

/-- `OrderSide` from `types/order.rs`. -/
inductive OrderSide where
  | Buy : OrderSide
  | Sell : OrderSide
deriving DecidableEq

def OrderSide.as_u8 : OrderSide → Nat
  | .Buy => 0
  | .Sell => 1

def OrderSide.as_str : OrderSide → String
  | .Buy => "BUY"
  | .Sell => "SELL"

/-- `get_spread_for_price` from `executor/validator.rs`. -/
def get_spread_for_price (price : F) : F :=
  if (F.ge price (.fin SLIPPAGE_EXTREME_THRESHOLD_HIGH)
      || F.le price (.fin SLIPPAGE_EXTREME_THRESHOLD_LOW)) then
    .fin EXTREME_SPREAD
  else
    .fin NORMAL_SPREAD

/-- `apply_slippage` from `executor/validator.rs`:
BUY `price.max((price + spread).min(MAX_PRICE))`,
SELL `price.min((price - spread).max(MIN_PRICE))`. -/
def apply_slippage (price : F) (side : OrderSide) : F :=
  let spread := get_spread_for_price price
  match side with
  | .Buy => F.fmax price (F.fmin (F.add price spread) (.fin MAX_PRICE))
  | .Sell => F.fmin price (F.fmax (F.sub price spread) (.fin MIN_PRICE))

/-- `ValidationState::try_deduct_balance` (the CAS loop under the
single-writer semantics of the model): fail and leave the balance unchanged
when `current < amount`, else succeed with `current - amount`. -/
def try_deduct_balance (balance amount : F) : Bool × F :=
  if F.lt balance amount then (false, balance) else (true, F.sub balance amount)

/-- `ValidationState::get_minted_amount`: nested lookup defaulting to `0.0`. -/
def get_minted_amount (minted : List (String × List (String × F)))
    (group_key token_id : String) : F :=
  match lookupA minted group_key with
  | some grp =>
      match lookupA grp token_id with
      | some v => v
      | none => .fin 0
  | none => .fin 0

/-- `ValidationState::deduct_minted`: `*current = (*current - amount).max(0.0)`
on the nested entry, when present. -/
def deduct_minted (minted : List (String × List (String × F)))
    (group_key token_id : String) (amount : F) : List (String × List (String × F)) :=
  updateFirstA minted group_key (fun grp =>
    updateFirstA grp token_id (fun cur => F.fmax (F.sub cur amount) (.fin 0)))

-- =============================================================================
-- C7 — try_deduct_balance never drives the balance negative
-- =============================================================================

/-- C7: for a non-negative finite amount, `try_deduct_balance` returns `false`
and leaves the balance unchanged when `balance < amount`, and returns `true`
with the balance reduced by the amount otherwise; a non-negative balance never
becomes negative through deduction. -/
theorem c7_try_deduct_balance_spec (balance amount : F) (a : ℚ)
    (hamt : amount = .fin a) (ha : 0 ≤ a) :
    (F.lt balance amount = true →
      try_deduct_balance balance amount = (false, balance))
    ∧ (F.lt balance amount = false →
      try_deduct_balance balance amount = (true, F.sub balance amount))
    ∧ (F.lt balance (.fin 0) = false →
        F.lt (try_deduct_balance balance amount).2 (.fin 0) = false) := by
  subst hamt
  refine ⟨fun h => by simp [try_deduct_balance, h],
    fun h => by simp [try_deduct_balance, h], fun hnn => ?_⟩
  cases balance with
  | nan => simp [try_deduct_balance, F.lt, F.sub, F.add, F.neg]
  | inf s =>
      cases s
      · simp [F.lt] at hnn
      · simp [try_deduct_balance, F.lt, F.sub, F.add, F.neg]
  | fin b =>
      simp only [F.lt, decide_eq_false_iff_not, not_lt] at hnn
      by_cases hlt : b < a
      · simp [try_deduct_balance, F.lt, hlt]
        linarith
      · simp only [try_deduct_balance, F.lt, decide_eq_true_eq, if_neg hlt]
        simp [F.sub, F.add, F.neg, F.lt]
        linarith [not_lt.mp hlt]

/-- Witness for C7: balance 1000, amount 500. -/
theorem c7_witness :
    try_deduct_balance (.fin 1000) (.fin 500) = (true, F.sub (.fin 1000) (.fin 500)) ∧
    F.lt (try_deduct_balance (.fin 1000) (.fin 500)).2 (.fin 0) = false := by
  have h := c7_try_deduct_balance_spec (.fin 1000) (.fin 500) 500 rfl (by norm_num)
  exact ⟨h.2.1 (by norm_num [F.lt]), h.2.2 (by norm_num [F.lt])⟩

-- =============================================================================
-- C8 — apply_slippage
-- =============================================================================

/-- C8 counterexample: at candidate price 1.0 with side BUY, `apply_slippage`
returns 1.0 — not `min(0.99, price + spread) = 0.99` — and the result is not
clamped to `[0.01, 0.99]`. -/
theorem c8_counterexample :
    apply_slippage (.fin 1) OrderSide.Buy = .fin 1 ∧
    F.le (apply_slippage (.fin 1) OrderSide.Buy) (.fin MAX_PRICE) = false := by
  have h : apply_slippage (.fin 1) OrderSide.Buy = .fin 1 := by
    norm_num [apply_slippage, get_spread_for_price, F.ge, F.le, F.add, F.fmax, F.fmin,
      SLIPPAGE_EXTREME_THRESHOLD_HIGH, SLIPPAGE_EXTREME_THRESHOLD_LOW, EXTREME_SPREAD,
      NORMAL_SPREAD, MAX_PRICE]
  refine ⟨h, ?_⟩
  rw [h]
  norm_num [F.le, MAX_PRICE]

/-- Helper: `get_spread_for_price` on a finite price, at the rational level. -/
theorem get_spread_fin (p : ℚ) :
    get_spread_for_price (.fin p) =
      .fin (if SLIPPAGE_EXTREME_THRESHOLD_HIGH ≤ p ∨ p ≤ SLIPPAGE_EXTREME_THRESHOLD_LOW
        then EXTREME_SPREAD else NORMAL_SPREAD) := by
  unfold get_spread_for_price
  by_cases h : SLIPPAGE_EXTREME_THRESHOLD_HIGH ≤ p ∨ p ≤ SLIPPAGE_EXTREME_THRESHOLD_LOW <;>
    simp [F.ge, F.le, h]

theorem F.le_fin (a b : ℚ) : F.le (.fin a) (.fin b) = decide (a ≤ b) := rfl

theorem F.lt_fin (a b : ℚ) : F.lt (.fin a) (.fin b) = decide (a < b) := rfl

theorem F.add_fin (a b : ℚ) : F.add (.fin a) (.fin b) = .fin (a + b) := rfl

theorem F.sub_fin (a b : ℚ) : F.sub (.fin a) (.fin b) = .fin (a - b) := by
  show F.add (.fin a) (.fin (-b)) = .fin (a - b)
  rw [F.add_fin, ← sub_eq_add_neg]

theorem F.fmax_fin (a b : ℚ) : F.fmax (.fin a) (.fin b) = .fin (max a b) := by
  show (if F.le (.fin a) (.fin b) then F.fin b else F.fin a) = .fin (max a b)
  rw [F.le_fin]
  by_cases h : a ≤ b
  · rw [if_pos (by simpa using h), max_eq_right h]
  · rw [if_neg (by simpa using h), max_eq_left (le_of_not_le h)]

theorem F.fmin_fin (a b : ℚ) : F.fmin (.fin a) (.fin b) = .fin (min a b) := by
  show (if F.le (.fin a) (.fin b) then F.fin a else F.fin b) = .fin (min a b)
  rw [F.le_fin]
  by_cases h : a ≤ b
  · rw [if_pos (by simpa using h), min_eq_left h]
  · rw [if_neg (by simpa using h), min_eq_right (le_of_not_le h)]

/-- C8 amended: slippage never moves the price against the trade direction:
the code computes BUY `max(price, min(0.99, price + spread))` and SELL
`min(price, max(0.01, price - spread))`.  Hence for BUY prices ≤ 0.99 the
result is `min(0.99, price + spread)` exactly as claimed, for SELL prices
≥ 0.01 it is `max(0.01, price - spread)`, and for input prices within
[0.01, 0.99] the result stays within [0.01, 0.99]; outside that range the
input price is returned unchanged rather than clamped. -/
theorem c8_apply_slippage_spec (p : ℚ) :
    (p ≤ MAX_PRICE →
      apply_slippage (.fin p) OrderSide.Buy =
        .fin (min MAX_PRICE
          (p + (if SLIPPAGE_EXTREME_THRESHOLD_HIGH ≤ p ∨ p ≤ SLIPPAGE_EXTREME_THRESHOLD_LOW
            then EXTREME_SPREAD else NORMAL_SPREAD))))
    ∧ (MIN_PRICE ≤ p →
      apply_slippage (.fin p) OrderSide.Sell =
        .fin (max MIN_PRICE
          (p - (if SLIPPAGE_EXTREME_THRESHOLD_HIGH ≤ p ∨ p ≤ SLIPPAGE_EXTREME_THRESHOLD_LOW
            then EXTREME_SPREAD else NORMAL_SPREAD))))
    ∧ (MIN_PRICE ≤ p → p ≤ MAX_PRICE → ∀ side : OrderSide,
        F.le (.fin MIN_PRICE) (apply_slippage (.fin p) side) = true ∧
        F.le (apply_slippage (.fin p) side) (.fin MAX_PRICE) = true) := by
  set s : ℚ := if SLIPPAGE_EXTREME_THRESHOLD_HIGH ≤ p ∨ p ≤ SLIPPAGE_EXTREME_THRESHOLD_LOW
    then EXTREME_SPREAD else NORMAL_SPREAD with hs_def
  have hs : 0 < s := by
    rw [hs_def]
    split <;> norm_num [EXTREME_SPREAD, NORMAL_SPREAD]
  have hbuy : p ≤ MAX_PRICE →
      apply_slippage (.fin p) OrderSide.Buy = .fin (min MAX_PRICE (p + s)) := by
    intro hp
    show F.fmax (.fin p) (F.fmin (F.add (.fin p) (get_spread_for_price (.fin p)))
      (.fin MAX_PRICE)) = .fin (min MAX_PRICE (p + s))
    rw [get_spread_fin, ← hs_def, F.add_fin, F.fmin_fin, F.fmax_fin]
    rw [max_eq_right (le_min (by linarith) hp), min_comm]
  have hsell : MIN_PRICE ≤ p →
      apply_slippage (.fin p) OrderSide.Sell = .fin (max MIN_PRICE (p - s)) := by
    intro hp
    show F.fmin (.fin p) (F.fmax (F.sub (.fin p) (get_spread_for_price (.fin p)))
      (.fin MIN_PRICE)) = .fin (max MIN_PRICE (p - s))
    rw [get_spread_fin, ← hs_def, F.sub_fin, F.fmax_fin, F.fmin_fin]
    rw [min_eq_right (max_le (by linarith) hp), max_comm]
  refine ⟨hbuy, hsell, fun h1 h2 side => ?_⟩
  cases side with
  | Buy =>
      rw [hbuy h2, F.le_fin, F.le_fin]
      refine ⟨?_, ?_⟩
      · rw [decide_eq_true_eq]
        exact le_min (by norm_num [MIN_PRICE, MAX_PRICE]) (by linarith)
      · rw [decide_eq_true_eq]
        exact min_le_left _ _
  | Sell =>
      rw [hsell h1, F.le_fin, F.le_fin]
      refine ⟨?_, ?_⟩
      · rw [decide_eq_true_eq]
        exact le_max_left _ _
      · rw [decide_eq_true_eq]
        exact max_le (by norm_num [MIN_PRICE, MAX_PRICE]) (by linarith)

/-- Witness for the amended C8 at price 0.50 (BUY): result 0.51. -/
theorem c8_witness :
    apply_slippage (.fin 0.50) OrderSide.Buy = .fin (51/100) := by
  have h := (c8_apply_slippage_spec 0.50).1 (by norm_num [MAX_PRICE])
  rw [h]
  norm_num [MAX_PRICE, SLIPPAGE_EXTREME_THRESHOLD_HIGH, SLIPPAGE_EXTREME_THRESHOLD_LOW,
    EXTREME_SPREAD, NORMAL_SPREAD]

-- =============================================================================
-- C10 — deduct_minted clamps at zero, absent keys untouched
-- =============================================================================

/-- C10: `deduct_minted` sets the stored minted amount to
`max(previous - amount, 0)` (IEEE max, so never negative), and deducting for
an absent group key or token id leaves the map unchanged. -/
theorem c10_deduct_minted_spec (minted : List (String × List (String × F)))
    (gk tid : String) (amount : F) :
    (lookupA minted gk = none → deduct_minted minted gk tid amount = minted)
    ∧ (∀ grp, lookupA minted gk = some grp → lookupA grp tid = none →
        deduct_minted minted gk tid amount = minted)
    ∧ (∀ grp cur, lookupA minted gk = some grp → lookupA grp tid = some cur →
        (lookupA (deduct_minted minted gk tid amount) gk).bind (fun g => lookupA g tid)
          = some (F.fmax (F.sub cur amount) (.fin 0)))
    ∧ (∀ cur : F, F.lt (F.fmax (F.sub cur amount) (.fin 0)) (.fin 0) = false) := by
  refine ⟨fun h => updateFirstA_of_none _ _ _ h, fun grp hg ht => ?_, fun grp cur hg ht => ?_,
    fun cur => ?_⟩
  · refine updateFirstA_of_fixed _ _ _ fun v hv => ?_
    rw [hg] at hv
    cases hv
    exact updateFirstA_of_none _ _ _ ht
  · unfold deduct_minted
    rw [lookupA_updateFirstA_self, hg]
    simp only [Option.map_some', Option.some_bind]
    rw [lookupA_updateFirstA_self, ht]
    rfl
  · rcases hval : F.sub cur amount with _ | s | q
    · simp [F.fmax, F.lt]
    · cases s <;> simp [F.fmax, F.le, F.lt]
    · rw [F.fmax_fin]
      rw [F.lt_fin]
      simp only [decide_eq_false_iff_not, not_lt]
      exact le_max_right q 0

/-- Witness for C10: minted 10, deduct 4 leaves 6. -/
theorem c10_witness :
    (lookupA (deduct_minted [("g", [("t", F.fin 10)])] "g" "t" (.fin 4)) "g").bind
        (fun grp => lookupA grp "t") = some (F.fmax (F.sub (.fin 10) (.fin 4)) (.fin 0)) :=
  (c10_deduct_minted_spec [("g", [("t", F.fin 10)])] "g" "t" (.fin 4)).2.2.1 _ _ rfl rfl

-- =============================================================================
-- types/signal.rs — ArbSignal; types/order.rs — OrderCandidate
-- =============================================================================

/-- `ArbSignal` from `types/signal.rs` (f64 fields as `F`). -/
structure ArbSignal where
  group_key : String
  event_slug : String
  crypto : String
  strategy : String
  profit_abs : F
  profit_bps : F
  timestamp_ms : Int
  parent_asset_id : String
  parent_market_slug : String
  parent_best_bid : Option F
  parent_best_ask : Option F
  parent_best_bid_size : Option F
  parent_best_ask_size : Option F
  parent_neg_risk : Bool
  parent_upper_asset_id : String
  parent_upper_market_slug : String
  parent_upper_best_bid : Option F
  parent_upper_best_ask : Option F
  parent_upper_best_bid_size : Option F
  parent_upper_best_ask_size : Option F
  parent_upper_neg_risk : Bool
  child_asset_id : String
  child_market_slug : String
  child_best_bid : Option F
  child_best_ask : Option F
  child_best_bid_size : Option F
  child_best_ask_size : Option F
  child_neg_risk : Bool
  child_index : Int
  children_sum_ask : F
  children_sum_bid : F
  parent_best_bid_flat : Option F
  parent_best_ask_flat : Option F
  parent_upper_best_bid_flat : Option F
  parent_upper_best_ask_flat : Option F
  triangle_total_cost : Option F
  triangle_total_bid : Option F
  triangle_payout : Option F
  triangle_mode : Option String
  reason : String
deriving DecidableEq

/-- `OrderCandidate` as used by `executor/validator.rs`. -/
structure OrderCandidate where
  token_id : String
  price : F
  side : OrderSide
  orderbook_size : Option F
  neg_risk : Bool
deriving DecidableEq

-- =============================================================================
-- executor/validator.rs — candidates, costs, should_skip
-- =============================================================================

/-- `build_order_candidates` from `executor/validator.rs`: per strategy, up to
three candidates in leg order; a leg lacking its quote is dropped. -/
def build_order_candidates (signal : ArbSignal) : List OrderCandidate :=
  if signal.strategy = "POLYMARKET_TRIANGLE_BUY" then
    (match signal.parent_best_ask with
      | some ask => [{ token_id := signal.parent_asset_id, price := ask, side := .Buy,
                       orderbook_size := signal.parent_best_ask_size,
                       neg_risk := signal.parent_neg_risk }]
      | none => [])
    ++ (match signal.parent_upper_best_ask with
      | some ask => [{ token_id := signal.parent_upper_asset_id, price := ask, side := .Buy,
                       orderbook_size := signal.parent_upper_best_ask_size,
                       neg_risk := signal.parent_upper_neg_risk }]
      | none => [])
    ++ (match signal.child_best_ask with
      | some ask => [{ token_id := signal.child_asset_id, price := ask, side := .Buy,
                       orderbook_size := signal.child_best_ask_size,
                       neg_risk := signal.child_neg_risk }]
      | none => [])
  else if signal.strategy = "SELL_PARENT_BUY_CHILDREN" then
    (match signal.parent_best_bid_flat with
      | some bid => [{ token_id := signal.parent_asset_id, price := bid, side := .Sell,
                       orderbook_size := signal.parent_best_bid_size,
                       neg_risk := signal.parent_neg_risk }]
      | none => [])
    ++ (match signal.parent_upper_best_ask with
      | some ask => [{ token_id := signal.parent_upper_asset_id, price := ask, side := .Buy,
                       orderbook_size := signal.parent_upper_best_ask_size,
                       neg_risk := signal.parent_upper_neg_risk }]
      | none => [])
    ++ (match signal.child_best_ask with
      | some ask => [{ token_id := signal.child_asset_id, price := ask, side := .Buy,
                       orderbook_size := signal.child_best_ask_size,
                       neg_risk := signal.child_neg_risk }]
      | none => [])
  else if signal.strategy = "BUY_PARENT_SELL_CHILDREN" then
    (match signal.parent_best_ask_flat with
      | some ask => [{ token_id := signal.parent_asset_id, price := ask, side := .Buy,
                       orderbook_size := signal.parent_best_ask_size,
                       neg_risk := signal.parent_neg_risk }]
      | none => [])
    ++ (match signal.parent_upper_best_bid with
      | some bid => [{ token_id := signal.parent_upper_asset_id, price := bid, side := .Sell,
                       orderbook_size := signal.parent_upper_best_bid_size,
                       neg_risk := signal.parent_upper_neg_risk }]
      | none => [])
    ++ (match signal.child_best_bid with
      | some bid => [{ token_id := signal.child_asset_id, price := bid, side := .Sell,
                       orderbook_size := signal.child_best_bid_size,
                       neg_risk := signal.child_neg_risk }]
      | none => [])
  else []

/-- `calculate_total_cost` from `executor/validator.rs`. -/
def calculate_total_cost (signal : ArbSignal) : F :=
  if signal.strategy = "POLYMARKET_TRIANGLE_BUY" then
    signal.triangle_total_cost.getD (.fin 0)
  else if signal.strategy = "SELL_PARENT_BUY_CHILDREN" then
    F.add (F.add signal.children_sum_ask (signal.parent_upper_best_ask.getD (.fin 0)))
      (F.sub (.fin 1) (signal.parent_best_bid.getD (.fin 0)))
  else if signal.strategy = "BUY_PARENT_SELL_CHILDREN" then
    F.add (F.add (signal.parent_best_ask_flat.getD (.fin 0))
        (F.sub (.fin 1) (signal.child_best_bid.getD (.fin 0))))
      (F.sub (.fin 1) (signal.parent_upper_best_bid.getD (.fin 0)))
  else .fin 0

/-- `estimate_required_cost`: sum of `price * size` over BUY legs. -/
def estimate_required_cost (candidates : List OrderCandidate) (size : F) : F :=
  ((candidates.filter fun c => decide (c.side = OrderSide.Buy)).map
    fun c => F.mul c.price size).foldl F.add (.fin 0)

/-- Snapshot of `ValidationState` (atomics read at `should_skip` time). -/
structure ValidationState where
  usdc_balance : F
  trading_enabled : Bool
  is_submitting : Bool
  last_executed_at : Nat
  minted_assets : List (String × List (String × F))
deriving DecidableEq

/-- `ExecutorConfig` from `executor/validator.rs`. -/
structure ExecutorConfig where
  min_pnl_threshold_percent : F
  default_size : F
  slippage_enabled : Bool
  opportunity_timeout_ms : Nat
  maker_address : String
  signer_address : String
deriving DecidableEq

/-- `SkipReason` from `executor/validator.rs`. -/
inductive SkipReason where
  | TradingDisabled : SkipReason
  | AlreadySubmitting : SkipReason
  | CooldownActive : SkipReason
  | PnlBelowThreshold : SkipReason
  | InsufficientBalance : SkipReason
  | InvalidSize : SkipReason
  | NoCandidates : SkipReason
  | InsufficientOrderbookSize : SkipReason
  | InsufficientMintedAssets : SkipReason
deriving DecidableEq

/-- `ValidationResult` from `executor/validator.rs`. -/
structure ValidationResult where
  candidates : List OrderCandidate
  size : F
  required_cost : F
  total_cost : F
deriving DecidableEq

/-- Gate 4b condition: some candidate has a present orderbook size below
`default_size`. -/
def orderbook_too_small (candidates : List OrderCandidate) (default_size : F) : Bool :=
  candidates.any fun c =>
    match c.orderbook_size with
    | some ob => F.lt ob default_size
    | none => false

/-- Gate 5's `pnl_percent`: `profit_abs / total_cost * 100` when
`total_cost > 0`, else `0`. -/
def pnl_percent_of (signal : ArbSignal) : F :=
  if F.gt (calculate_total_cost signal) (.fin 0) then
    F.mul (F.div signal.profit_abs (calculate_total_cost signal)) (.fin 100)
  else .fin 0

/-- Gate 6b condition: some SELL leg's minted amount is below `size`. -/
def minted_too_small (minted : List (String × List (String × F))) (group_key : String)
    (candidates : List OrderCandidate) (size : F) : Bool :=
  (candidates.filter fun c => decide (c.side = OrderSide.Sell)).any fun leg =>
    F.lt (get_minted_amount minted group_key leg.token_id) size

/-- `should_skip` from `executor/validator.rs` (clock read threaded as
`now_ms`; sequential early-return structure of the source). -/
def should_skip (signal : ArbSignal) (state : ValidationState) (config : ExecutorConfig)
    (now_ms : Nat) : Except SkipReason ValidationResult :=
  if !state.trading_enabled then .error .TradingDisabled
  else if state.is_submitting then .error .AlreadySubmitting
  else if 0 < state.last_executed_at ∧
      now_ms - state.last_executed_at < config.opportunity_timeout_ms then
    .error .CooldownActive
  else if (build_order_candidates signal).isEmpty then .error .NoCandidates
  else if orderbook_too_small (build_order_candidates signal) config.default_size then
    .error .InsufficientOrderbookSize
  else if F.lt (pnl_percent_of signal) config.min_pnl_threshold_percent then
    .error .PnlBelowThreshold
  else if !config.default_size.isFinite || F.lt config.default_size (.fin 5) then
    .error .InvalidSize
  else if minted_too_small state.minted_assets signal.group_key
      (build_order_candidates signal) config.default_size then
    .error .InsufficientMintedAssets
  else if F.lt state.usdc_balance
      (estimate_required_cost (build_order_candidates signal) config.default_size) then
    .error .InsufficientBalance
  else
    .ok { candidates := build_order_candidates signal,
          size := config.default_size,
          required_cost := estimate_required_cost (build_order_candidates signal)
            config.default_size,
          total_cost := calculate_total_cost signal }

-- =============================================================================
-- C6 — should_skip is the first-failing-gate cascade in the claimed order
-- =============================================================================

/-- The nine validation gates, in the order the claim lists them, each paired
with its skip reason. -/
def skipGates (signal : ArbSignal) (state : ValidationState) (config : ExecutorConfig)
    (now_ms : Nat) : List (Bool × SkipReason) :=
  [(!state.trading_enabled, .TradingDisabled),
   (state.is_submitting, .AlreadySubmitting),
   (decide (0 < state.last_executed_at ∧
      now_ms - state.last_executed_at < config.opportunity_timeout_ms), .CooldownActive),
   ((build_order_candidates signal).isEmpty, .NoCandidates),
   (orderbook_too_small (build_order_candidates signal) config.default_size,
      .InsufficientOrderbookSize),
   (F.lt (pnl_percent_of signal) config.min_pnl_threshold_percent, .PnlBelowThreshold),
   (!config.default_size.isFinite || F.lt config.default_size (.fin 5), .InvalidSize),
   (minted_too_small state.minted_assets signal.group_key (build_order_candidates signal)
      config.default_size, .InsufficientMintedAssets),
   (F.lt state.usdc_balance
      (estimate_required_cost (build_order_candidates signal) config.default_size),
      .InsufficientBalance)]

/-- The reason of the first failing gate, if any. -/
def firstFail : List (Bool × SkipReason) → Option SkipReason
  | [] => none
  | (b, r) :: rest => if b then some r else firstFail rest

/-- C6: `should_skip` returns the skip reason of the first failing gate, in
the order TradingDisabled, AlreadySubmitting, CooldownActive, NoCandidates,
InsufficientOrderbookSize, PnlBelowThreshold, InvalidSize,
InsufficientMintedAssets, InsufficientBalance, and `Ok` (with the candidates,
size, required cost and total cost) exactly when every gate passes. -/
theorem c6_should_skip_spec (signal : ArbSignal) (state : ValidationState)
    (config : ExecutorConfig) (now_ms : Nat) :
    should_skip signal state config now_ms =
      match firstFail (skipGates signal state config now_ms) with
      | some r => .error r
      | none => .ok { candidates := build_order_candidates signal,
                      size := config.default_size,
                      required_cost := estimate_required_cost (build_order_candidates signal)
                        config.default_size,
                      total_cost := calculate_total_cost signal } := by
  unfold should_skip skipGates
  split_ifs <;> simp [firstFail, *]

-- =============================================================================
-- C9 — order-amount parity: executor path vs inline batch-order-API path
-- =============================================================================

/-- `OrderToSign` from `types/order.rs`. -/
structure OrderToSign where
  salt : String
  token_id : String
  maker_amount : String
  taker_amount : String
  side : Nat
  neg_risk : Bool
  fee_rate_bps : Nat
deriving DecidableEq

/-- `round_to_decimals` from `executor/validator.rs`:
`(value * 10^d).round() / 10^d`. -/
def round_to_decimals (value : F) (decimals : Nat) : F :=
  F.div (F.roundF (F.mul value (.fin ((10 : ℚ) ^ decimals)))) (.fin ((10 : ℚ) ^ decimals))

/-- `prepare_batch_orders` from `executor/validator.rs` (the random salt is
threaded as an oracle indexed by candidate position). -/
def prepare_batch_orders (candidates : List OrderCandidate) (size : F)
    (config : ExecutorConfig) (salt_fn : Nat → String) : List OrderToSign :=
  candidates.enum.map fun ic =>
    let candidate := ic.2
    let price := if config.slippage_enabled then apply_slippage candidate.price candidate.side
      else candidate.price
    let size_rounded := round_to_decimals size 2
    let usdc_rounded := round_to_decimals (F.mul price size_rounded) 4
    let maker_taker : Nat × Nat :=
      match candidate.side with
      | .Buy => ((F.roundF (F.mul usdc_rounded (.fin DECIMALS))).toU64,
                 (F.roundF (F.mul size_rounded (.fin DECIMALS))).toU64)
      | .Sell => ((F.roundF (F.mul size_rounded (.fin DECIMALS))).toU64,
                  (F.roundF (F.mul usdc_rounded (.fin DECIMALS))).toU64)
    { salt := salt_fn ic.1, token_id := candidate.token_id,
      maker_amount := toString maker_taker.1, taker_amount := toString maker_taker.2,
      side := candidate.side.as_u8, neg_risk := candidate.neg_risk, fee_rate_bps := 0 }

/-- `NapiBatchOrderInput` fields consumed by the amount computation in
`bridge/napi_exports.rs`. -/
structure NapiBatchOrderInput where
  token_id : String
  price : F
  size : F
  side : String
  neg_risk : Option Bool
  fee_rate_bps : Option Nat
  order_type : Option String
deriving DecidableEq

/-- The per-input `OrderToSign` construction inside
`place_batch_orders_rust_inner` (`bridge/napi_exports.rs`), salt threaded. -/
def place_batch_order_to_sign (input : NapiBatchOrderInput) (salt : String) : OrderToSign :=
  let side : Nat := if input.side = "SELL" then 1 else 0
  let neg_risk := input.neg_risk.getD false
  let fee_rate_bps := input.fee_rate_bps.getD 0
  let size_rounded := F.div (F.roundF (F.mul input.size (.fin 100))) (.fin 100)
  let usdc_rounded := F.div (F.roundF (F.mul (F.mul input.price size_rounded) (.fin 10000)))
    (.fin 10000)
  let maker_taker : Nat × Nat :=
    if side = 0 then
      ((F.roundF (F.mul usdc_rounded (.fin 1000000))).toU64,
       (F.roundF (F.mul size_rounded (.fin 1000000))).toU64)
    else
      ((F.roundF (F.mul size_rounded (.fin 1000000))).toU64,
       (F.roundF (F.mul usdc_rounded (.fin 1000000))).toU64)
  { salt := salt, token_id := input.token_id,
    maker_amount := toString maker_taker.1, taker_amount := toString maker_taker.2,
    side := side, neg_risk := neg_risk, fee_rate_bps := fee_rate_bps }

/-- C9: with slippage disabled, the executor path (`prepare_batch_orders`)
and the inline batch-order-API path produce identical `maker_amount` and
`taker_amount` strings for the same `(token_id, price, size, side, neg_risk,
fee_rate_bps = 0)`. -/
theorem c9_order_amount_parity (token_id : String) (price size : F) (side : OrderSide)
    (neg_risk : Bool) (obs : Option F) (config : ExecutorConfig) (salt_fn : Nat → String)
    (salt : String) (hs : config.slippage_enabled = false) :
    (prepare_batch_orders [⟨token_id, price, side, obs, neg_risk⟩] size config salt_fn).map
      (fun o => (o.maker_amount, o.taker_amount)) =
    [((place_batch_order_to_sign
        ⟨token_id, price, size, side.as_str, some neg_risk, some 0, none⟩ salt).maker_amount,
      (place_batch_order_to_sign
        ⟨token_id, price, size, side.as_str, some neg_risk, some 0, none⟩ salt).taker_amount)] := by
  have h2 : ((10 : ℚ) ^ (2 : Nat)) = 100 := by norm_num
  have h4 : ((10 : ℚ) ^ (4 : Nat)) = 10000 := by norm_num
  cases side <;>
    simp [prepare_batch_orders, place_batch_order_to_sign, round_to_decimals, hs,
      OrderSide.as_str, OrderSide.as_u8, DECIMALS, h2, h4, List.enum]

/-- Witness for C9 at price 0.65, size 10, BUY: both paths give
`maker_amount = "6500000"`, `taker_amount = "10000000"`. -/
theorem c9_witness :
    (prepare_batch_orders [⟨"tok", .fin 0.65, OrderSide.Buy, none, true⟩] (.fin 10)
      ⟨.fin 0, .fin 10, false, 5000, "m", "s"⟩ (fun _ => "salt")).map
      (fun o => (o.maker_amount, o.taker_amount)) = [("6500000", "10000000")] := by
  rw [c9_order_amount_parity "tok" (.fin 0.65) (.fin 10) OrderSide.Buy true none _ _ "salt" rfl]
  norm_num [place_batch_order_to_sign, OrderSide.as_str, F.mul, F.roundF, F.div, F.toU64,
    ratRoundAway, Int.floor_eq_iff]
  decide


-- =============================================================================
-- engine/state.rs — market metadata, roles, engine state
-- =============================================================================

/-- `MarketKind` from `engine/state.rs`. -/
inductive MarketKind where
  | Range : MarketKind
  | Above : MarketKind
  | Below : MarketKind
deriving DecidableEq

/-- `MarketKind::from_str`. -/
def MarketKind.from_str (s : String) : MarketKind :=
  if s = "above" then .Above else if s = "below" then .Below else .Range

/-- `MarketMeta` from `engine/state.rs`; `clob_token_ids = [YES, NO]` is split
into `yes_token` / `no_token`. -/
structure MarketMeta where
  market_id : String
  slug : String
  yes_token : String
  no_token : String
  bounds_lower : Option F
  bounds_upper : Option F
  kind : MarketKind
  neg_risk : Bool
  yes_slot : Nat
  no_slot : Nat
deriving DecidableEq

def mmDummy : MarketMeta :=
  ⟨"", "", "", "", none, none, .Range, false, 0, 0⟩

/-- `TrioLegRole` from `engine/state.rs`. -/
inductive TrioLegRole where
  | ParentLowerYes : TrioLegRole
  | ParentUpperNo : TrioLegRole
  | RangeNo : TrioLegRole
  | ParentLowerNo : TrioLegRole
  | RangeYes : TrioLegRole
  | ParentUpperYes : TrioLegRole
deriving DecidableEq

/-- `TokenRole` from `engine/state.rs`. -/
inductive TokenRole where
  | TrioLeg : Nat → Nat → TrioLegRole → TokenRole
  | RangeChild : Nat → Nat → TokenRole
  | Parent : Nat → Nat → TokenRole
deriving DecidableEq

/-- `GroupState` from `engine/state.rs`. -/
structure GroupState where
  group_key : String
  event_slug : String
  crypto : String
  child_metas : List MarketMeta
  parent_metas : List MarketMeta
  trio_states : List TrioState
  trio_lookup_by_asset : List (String × List Nat)
deriving DecidableEq

def gsDummy : GroupState := ⟨"", "", "", [], [], [], []⟩

def trioDummy : TrioState := ⟨0, 0, 0, 0, 0, 0, "", "", "", 0, 0, 0⟩

/-- `LastPrice` from `engine/state.rs` (dirty-check cache entry). -/
structure LastPrice where
  bid : F
  ask : F
  timestamp_ms : Int
deriving DecidableEq

/-- `EngineState` from `engine/state.rs`. -/
structure EngineState where
  price_table : PriceTable
  groups : List GroupState
  group_key_index : List (String × Nat)
  token_index : List (String × List TokenRole)
  last_price_cache : List (String × LastPrice)
  config : EngineConfig
deriving DecidableEq

/-- `EngineState::new`. -/
def EngineState.new (config : EngineConfig) : EngineState :=
  ⟨PriceTable.new, [], [], [], [], config⟩

-- =============================================================================
-- engine/engine.rs — inputs and market structure builder
-- =============================================================================

/-- `MarketDescriptorInput` from `engine/engine.rs`. -/
structure MarketDescriptorInput where
  market_id : String
  slug : String
  clob_token_ids : List String
  bounds_lower : Option F
  bounds_upper : Option F
  kind : String
  neg_risk : Bool
deriving DecidableEq

def descDummy : MarketDescriptorInput := ⟨"", "", [], none, none, "", false⟩

/-- `RangeGroupInput` from `engine/engine.rs`. -/
structure RangeGroupInput where
  group_key : String
  event_slug : String
  crypto : String
  children : List MarketDescriptorInput
  parents : List MarketDescriptorInput
deriving DecidableEq

/-- The child/parent meta construction in `update_market_structure`: keep
descriptors with at least two token ids, allocate YES and NO price slots in
order. -/
def buildMetas (pt : PriceTable) : List MarketDescriptorInput → PriceTable × List MarketMeta
  | [] => (pt, [])
  | m :: rest =>
      if 2 ≤ m.clob_token_ids.length then
        let r1 := pt.alloc_slot (m.clob_token_ids.getD 0 "")
        let r2 := r1.1.alloc_slot (m.clob_token_ids.getD 1 "")
        let r3 := buildMetas r2.1 rest
        (r3.1,
          ⟨m.market_id, m.slug, m.clob_token_ids.getD 0 "", m.clob_token_ids.getD 1 "",
            m.bounds_lower, m.bounds_upper, MarketKind.from_str m.kind, m.neg_risk,
            r1.2, r2.2⟩ :: r3.2)
      else buildMetas pt rest

/-- One step of building `range_lower_map` in `initialize_trio_states`:
insert (overwriting) range children with finite lower and present upper
bounds, keyed by the lower bound. -/
def rangeLowerMapAux : List MarketMeta → Nat → List (ℚ × Nat) → List (ℚ × Nat)
  | [], _, m => m
  | c :: rest, i, m =>
      rangeLowerMapAux rest (i + 1)
        (if c.kind = MarketKind.Range then
          match c.bounds_lower, c.bounds_upper with
          | some lb, some _ =>
              match lb with
              | .fin q => insertA m q i
              | _ => m
          | _, _ => m
        else m)

/-- `range_lower_map` of `initialize_trio_states` (keys are the finite lower
bounds; `HashMap` inserts overwrite, so the LAST matching child wins). -/
def range_lower_map (child_metas : List MarketMeta) : List (ℚ × Nat) :=
  rangeLowerMapAux child_metas 0 []

/-- Rust `Option<f64> == Option<f64>` (IEEE equality inside `Some`). -/
def optFBeq : Option F → Option F → Bool
  | some a, some b => F.beq a b
  | none, none => true
  | _, _ => false

/-- Tail of the per-pair decision of `initialize_trio_states`, after the
finite lower bounds `lq < uq` of the two parents have been extracted: look up
the range child by lower bound, check its upper bound and the leg tokens. -/
def trioTail (rlm : List (ℚ × Nat)) (child_metas : List MarketMeta)
    (lower upper : MarketMeta) (lower_idx : Nat) (lq uq : ℚ) : Option TrioState :=
  match lookupA rlm lq with
  | some range_idx =>
      let range_child := child_metas.getD range_idx mmDummy
      if optFBeq range_child.bounds_upper (some (.fin uq)) then
        if lower.yes_token.isEmpty || upper.no_token.isEmpty
            || range_child.no_token.isEmpty then
          none
        else
          some ⟨lower_idx, lower_idx + 1, range_idx,
            lower.yes_slot, upper.no_slot, range_child.no_slot,
            lower.yes_token, upper.no_token, range_child.no_token, 0, 0, 0⟩
      else none
  | none => none

/-- The per-pair decision of `initialize_trio_states`: adjacent parents both
`Above` with finite lower bounds, range child found by lower bound, child's
upper bound equal to the upper parent's lower bound, non-empty leg tokens. -/
def trioForPair (rlm : List (ℚ × Nat)) (child_metas parent_metas : List MarketMeta)
    (lower_idx : Nat) : Option TrioState :=
  let lower := parent_metas.getD lower_idx mmDummy
  let upper := parent_metas.getD (lower_idx + 1) mmDummy
  if lower.kind = MarketKind.Above ∧ upper.kind = MarketKind.Above then
    match lower.bounds_lower, upper.bounds_lower with
    | some (.fin lq), some (.fin uq) => trioTail rlm child_metas lower upper lower_idx lq uq
    | _, _ => none
  else none

/-- The trio-building loop of `initialize_trio_states`: for each adjacent
pair in order, append the trio (if any) and index all five role-bearing
tokens into the lookup. -/
def trioBuildLoop (child_metas parent_metas : List MarketMeta) :
    List Nat → List TrioState → List (String × List Nat) →
    List TrioState × List (String × List Nat)
  | [], trios, lookup => (trios, lookup)
  | lower_idx :: rest, trios, lookup =>
      match trioForPair (range_lower_map child_metas) child_metas parent_metas lower_idx with
      | none => trioBuildLoop child_metas parent_metas rest trios lookup
      | some trio =>
          let trio_idx := trios.length
          let upper := parent_metas.getD (lower_idx + 1) mmDummy
          let range_child := child_metas.getD trio.range_idx mmDummy
          let lk :=
            pushA (pushA (pushA (pushA (pushA lookup trio.lower_yes_token trio_idx)
                trio.upper_no_token trio_idx)
              trio.range_no_token trio_idx)
              upper.yes_token trio_idx)
              range_child.yes_token trio_idx
          trioBuildLoop child_metas parent_metas rest (trios ++ [trio]) lk

/-- `initialize_trio_states` from `engine/engine.rs`. -/
def init_trio_states (child_metas parent_metas : List MarketMeta) :
    List TrioState × List (String × List Nat) :=
  trioBuildLoop child_metas parent_metas (List.range (parent_metas.length - 1)) [] []

/-- Token-index registration of `update_market_structure` for one group:
children's YES tokens as `RangeChild`, parents' YES tokens as `Parent`, and
the three triangle leg tokens of every trio as `TrioLeg`. -/
def indexChildTokens (group_idx : Nat) :
    List MarketMeta → Nat → List (String × List TokenRole) → List (String × List TokenRole)
  | [], _, ti => ti
  | meta :: rest, child_idx, ti =>
      indexChildTokens group_idx rest (child_idx + 1)
        (pushA ti meta.yes_token (TokenRole.RangeChild group_idx child_idx))

def indexParentTokens (group_idx : Nat) :
    List MarketMeta → Nat → List (String × List TokenRole) → List (String × List TokenRole)
  | [], _, ti => ti
  | meta :: rest, parent_idx, ti =>
      indexParentTokens group_idx rest (parent_idx + 1)
        (pushA ti meta.yes_token (TokenRole.Parent group_idx parent_idx))

def indexTrioTokens (group_idx : Nat) :
    List TrioState → Nat → List (String × List TokenRole) → List (String × List TokenRole)
  | [], _, ti => ti
  | trio :: rest, trio_idx, ti =>
      indexTrioTokens group_idx rest (trio_idx + 1)
        (pushA (pushA (pushA ti
            trio.lower_yes_token (TokenRole.TrioLeg group_idx trio_idx .ParentLowerYes))
            trio.upper_no_token (TokenRole.TrioLeg group_idx trio_idx .ParentUpperNo))
            trio.range_no_token (TokenRole.TrioLeg group_idx trio_idx .RangeNo))

/-- Per-group loop of `update_market_structure`. -/
def umsLoop : EngineState → List RangeGroupInput → Nat → Int → EngineState × Int
  | st, [], _, total => (st, total)
  | st, g :: rest, group_idx, total =>
      let r1 := buildMetas st.price_table g.children
      let r2 := buildMetas r1.1 g.parents
      let child_metas := r1.2
      let parent_metas := r2.2
      let tl := init_trio_states child_metas parent_metas
      let ti1 := indexChildTokens group_idx child_metas 0 st.token_index
      let ti2 := indexParentTokens group_idx parent_metas 0 ti1
      let ti3 := indexTrioTokens group_idx tl.1 0 ti2
      umsLoop
        { st with
          price_table := r2.1,
          token_index := ti3,
          group_key_index := insertA st.group_key_index g.group_key group_idx,
          groups := st.groups ++ [⟨g.group_key, g.event_slug, g.crypto, child_metas,
            parent_metas, tl.1, tl.2⟩] }
        rest (group_idx + 1) (total + (tl.1.length : Int))

/-- `update_market_structure` from `engine/engine.rs`: clear all state, then
rebuild groups, trios and indices; returns the total trio count. -/
def update_market_structure (st : EngineState) (groups_input : List RangeGroupInput) :
    EngineState × Int :=
  umsLoop
    { st with
      price_table := PriceTable.new, groups := [], group_key_index := [],
      token_index := [], last_price_cache := [] }
    groups_input 0 0

-- =============================================================================
-- engine/state.rs::is_price_changed and the hot path
-- =============================================================================

/-- `EngineState::is_price_changed` from `engine/state.rs`: returns whether
the update should be processed, together with the new dirty-check cache. -/
def is_price_changed (cache : List (String × LastPrice)) (asset_id : String)
    (bid ask : F) (ts : Int) : Bool × List (String × LastPrice) :=
  match lookupA cache asset_id with
  | some cached =>
      if 0 < cached.timestamp_ms ∧ 0 < ts ∧ ts ≤ cached.timestamp_ms then
        (false, cache)
      else if F.beq cached.bid bid && F.beq cached.ask ask then
        (false,
          if 0 < ts then
            updateFirstA cache asset_id (fun c => { c with timestamp_ms := ts })
          else cache)
      else (true, insertA cache asset_id ⟨bid, ask, ts⟩)
  | none => (true, insertA cache asset_id ⟨bid, ask, ts⟩)

/-- `evaluate_single_trio` from `engine/trio_evaluator.rs`: profit calc, then
cooldown gate, then signal construction and cooldown stamp (the clock read is
threaded as `now_ms`). -/
def evaluate_single_trio (group : GroupState) (trio_idx : Nat) (pt : PriceTable)
    (cfg : EngineConfig) (now_ms : Int) : GroupState × Option ArbSignal :=
  let trio := group.trio_states.getD trio_idx trioDummy
  match calc_trio_profit_only trio pt cfg with
  | none => (group, none)
  | some calcr =>
      if 0 < trio.last_emitted_buy_ms ∧ now_ms - trio.last_emitted_buy_ms < cfg.cooldown_ms then
        (group, none)
      else
        let ly := pt.get trio.lower_yes_slot
        let un := pt.get trio.upper_no_slot
        let rn := pt.get trio.range_no_slot
        let parent_lower_meta := group.parent_metas.getD trio.parent_lower_idx mmDummy
        let parent_upper_meta := group.parent_metas.getD trio.parent_upper_idx mmDummy
        let range_child_meta := group.child_metas.getD trio.range_idx mmDummy
        let signal : ArbSignal :=
          { group_key := group.group_key, event_slug := group.event_slug,
            crypto := group.crypto, strategy := "POLYMARKET_TRIANGLE_BUY",
            profit_abs := calcr.profit_abs, profit_bps := calcr.profit_bps,
            timestamp_ms := now_ms,
            parent_asset_id := trio.lower_yes_token,
            parent_market_slug := parent_lower_meta.slug,
            parent_best_bid := some ly.best_bid, parent_best_ask := some ly.best_ask,
            parent_best_bid_size := some ly.best_bid_size,
            parent_best_ask_size := some ly.best_ask_size,
            parent_neg_risk := parent_lower_meta.neg_risk,
            parent_upper_asset_id := trio.upper_no_token,
            parent_upper_market_slug := parent_upper_meta.slug,
            parent_upper_best_bid := some un.best_bid,
            parent_upper_best_ask := some un.best_ask,
            parent_upper_best_bid_size := some un.best_bid_size,
            parent_upper_best_ask_size := some un.best_ask_size,
            parent_upper_neg_risk := parent_upper_meta.neg_risk,
            child_asset_id := trio.range_no_token,
            child_market_slug := range_child_meta.slug,
            child_best_bid := some rn.best_bid, child_best_ask := some rn.best_ask,
            child_best_bid_size := some rn.best_bid_size,
            child_best_ask_size := some rn.best_ask_size,
            child_neg_risk := range_child_meta.neg_risk,
            child_index := (trio.range_idx : Int),
            children_sum_ask := rn.best_ask, children_sum_bid := rn.best_bid,
            parent_best_bid_flat := some ly.best_bid,
            parent_best_ask_flat := some ly.best_ask,
            parent_upper_best_bid_flat := some un.best_bid,
            parent_upper_best_ask_flat := some un.best_ask,
            triangle_total_cost := some calcr.total_ask,
            triangle_total_bid := some calcr.total_bid,
            triangle_payout := some calcr.payout, triangle_mode := some "BUY",
            reason := "POLYMARKET_TRIANGLE_BUY_COST_LT_PAYOUT" }
        ({ group with
           trio_states := group.trio_states.set trio_idx
             { trio with last_emitted_buy_ms := now_ms } },
          some signal)

/-- The dispatch loop of `handle_top_of_book`: only `TrioLeg` roles invoke an
evaluator; the `RangeChild` / `Parent` arms are the disabled `_ => {}` arm of
the source. -/
def dispatchRoles (now_ms : Int) : List TokenRole → EngineState → List ArbSignal →
    EngineState × List ArbSignal
  | [], st, signals => (st, signals)
  | role :: rest, st, signals =>
      match role with
      | TokenRole.TrioLeg group_idx trio_idx _ =>
          if group_idx < st.groups.length then
            let r := evaluate_single_trio (st.groups.getD group_idx gsDummy) trio_idx
              st.price_table st.config now_ms
            dispatchRoles now_ms rest { st with groups := st.groups.set group_idx r.1 }
              (match r.2 with
                | some sig => signals ++ [sig]
                | none => signals)
          else dispatchRoles now_ms rest st signals
      | TokenRole.RangeChild _ _ => dispatchRoles now_ms rest st signals
      | TokenRole.Parent _ _ => dispatchRoles now_ms rest st signals

/-- `handle_top_of_book` from `engine/engine.rs`: dirty check, slot lookup,
single slot write, dispatch (clock read threaded as `now_ms`). -/
def handle_top_of_book (st : EngineState) (asset_id : String) (bid ask : F)
    (bid_size ask_size : Option F) (timestamp_ms : Int) (now_ms : Int) :
    EngineState × List ArbSignal :=
  match is_price_changed st.last_price_cache asset_id bid ask timestamp_ms with
  | (false, cache2) => ({ st with last_price_cache := cache2 }, [])
  | (true, cache2) =>
      let st1 := { st with last_price_cache := cache2 }
      match lookupA st1.price_table.token_to_slot asset_id with
      | none => (st1, [])
      | some slot =>
          let st2 := { st1 with
            price_table := st1.price_table.update slot bid ask bid_size ask_size timestamp_ms }
          match lookupA st2.token_index asset_id with
          | none => (st2, [])
          | some roles => dispatchRoles now_ms roles st2 []

-- =============================================================================
-- C5 — dirty-check frame effect
-- =============================================================================

/-- Helper: branch 1 of `is_price_changed` (stale timestamp). -/
theorem is_price_changed_stale (cache : List (String × LastPrice)) (asset : String)
    (bid ask : F) (ts : Int) (c : LastPrice) (hc : lookupA cache asset = some c)
    (h1 : 0 < c.timestamp_ms) (h2 : 0 < ts) (h3 : ts ≤ c.timestamp_ms) :
    is_price_changed cache asset bid ask ts = (false, cache) := by
  simp only [is_price_changed, hc]
  rw [if_pos ⟨h1, h2, h3⟩]

/-- Helper: branch 2 of `is_price_changed` (equal price, newer positive
timestamp): only the cached timestamp is refreshed. -/
theorem is_price_changed_same_price (cache : List (String × LastPrice)) (asset : String)
    (bid ask : F) (ts : Int) (c : LastPrice) (hc : lookupA cache asset = some c)
    (hbid : F.beq c.bid bid = true) (hask : F.beq c.ask ask = true)
    (hno : ¬ (0 < c.timestamp_ms ∧ 0 < ts ∧ ts ≤ c.timestamp_ms)) (hts : 0 < ts) :
    is_price_changed cache asset bid ask ts =
      (false, updateFirstA cache asset (fun cc => { cc with timestamp_ms := ts })) := by
  simp only [is_price_changed, hc]
  rw [if_neg hno, hbid, hask]
  simp [hts]

/-- C5: a quote update whose bid and ask equal the cached values, with a
timestamp not newer than the (positive) cached one, returns no signal and
leaves the whole engine state — in particular every price-table slot —
unchanged; with equal prices but a newer timestamp, only the cached
timestamp is updated and the call still returns no signal with no slot
write. -/
theorem c5_dirty_check_spec (st : EngineState) (asset_id : String) (bid ask : F)
    (bs asz : Option F) (ts now : Int) (c : LastPrice)
    (hc : lookupA st.last_price_cache asset_id = some c)
    (hbid : F.beq c.bid bid = true) (hask : F.beq c.ask ask = true) :
    (0 < c.timestamp_ms → 0 < ts → ts ≤ c.timestamp_ms →
      handle_top_of_book st asset_id bid ask bs asz ts now = (st, []))
    ∧ (0 < c.timestamp_ms → c.timestamp_ms < ts →
      handle_top_of_book st asset_id bid ask bs asz ts now =
        ({ st with
           last_price_cache := updateFirstA st.last_price_cache asset_id
             (fun cc => { cc with timestamp_ms := ts }) }, [])) := by
  constructor
  · intro h1 h2 h3
    unfold handle_top_of_book
    rw [is_price_changed_stale st.last_price_cache asset_id bid ask ts c hc h1 h2 h3]
  · intro h1 h2
    unfold handle_top_of_book
    rw [is_price_changed_same_price st.last_price_cache asset_id bid ask ts c hc hbid hask
      (by omega) (by omega)]

/-- A one-entry-cache engine state for the C5 witness. -/
def stC5 : EngineState :=
  { price_table := ptDemo, groups := [], group_key_index := [], token_index := [],
    last_price_cache := [("tok", ⟨.fin 0.5, .fin 0.6, 7⟩)], config := cfgDemo }

/-- Witness for C5: a concrete one-entry cache, identical re-quote. -/
theorem c5_witness :
    handle_top_of_book stC5 "tok" (.fin 0.5) (.fin 0.6) none none 7 99 = (stC5, []) := by
  refine (c5_dirty_check_spec stC5 "tok" (.fin 0.5) (.fin 0.6) none none 7 99
    ⟨.fin 0.5, .fin 0.6, 7⟩ rfl ?_ ?_).1 (by decide) (by decide) (by decide) <;>
    simp [F.beq]

-- =============================================================================
-- C3 — dispatch: RangeChild / Parent roles never trigger the range evaluator
-- =============================================================================

/-- The claim's scenario group: Above parents at 2800 and 2900 and the
2800-2900 range child (as in the repository's engine tests). -/
def groupInputDemo : RangeGroupInput :=
  { group_key := "eth-group", event_slug := "eth-price", crypto := "ETH",
    children := [⟨"range-2800-2900", "eth-2800-2900",
      ["range_yes_token", "range_no_token"], some (.fin 2800), some (.fin 2900),
      "range", false⟩],
    parents := [⟨"above-2800", "eth-above-2800",
      ["parent_lower_yes", "parent_lower_no"], some (.fin 2800), none, "above", false⟩,
      ⟨"above-2900", "eth-above-2900",
      ["parent_upper_yes", "parent_upper_no"], some (.fin 2900), none, "above", false⟩] }

/-- Engine config of the scenario (cooldown disabled, as in the tests). -/
def engineCfgC3 : EngineConfig := ⟨.fin 30, .fin 0.005, 0⟩

def engineAfterBuild : EngineState :=
  (update_market_structure (EngineState.new engineCfgC3) [groupInputDemo]).1

def c3step1 : EngineState × List ArbSignal :=
  handle_top_of_book engineAfterBuild "parent_lower_yes" (.fin 0.80) (.fin 0.82)
    (some (.fin 100)) (some (.fin 100)) 1 1000

def c3step2 : EngineState × List ArbSignal :=
  handle_top_of_book c3step1.1 "parent_upper_yes" (.fin 0.38) (.fin 0.40)
    (some (.fin 100)) (some (.fin 100)) 2 1001

def c3step3 : EngineState × List ArbSignal :=
  handle_top_of_book c3step2.1 "range_yes_token" (.fin 0.28) (.fin 0.30)
    (some (.fin 100)) (some (.fin 100)) 3 1002

/-- C3 (code bug): in the claim's unbundle scenario — YES quotes
`parent_lower` bid 0.80, `parent_upper` ask 0.40, `range` ask 0.30 — the
`range_yes_token` update carries only the `RangeChild` role, which falls into
the disabled `_ => {}` dispatch arm of `handle_top_of_book`, so no
`SELL_PARENT_BUY_CHILDREN` signal (indeed no signal at all) is emitted,
contradicting the claim and the repository's own
`test_handle_top_of_book_unbundling`. -/
theorem c3_dispatch_code_bug :
    lookupA engineAfterBuild.token_index "range_yes_token" =
      some [TokenRole.RangeChild 0 0] ∧
    c3step1.2 = [] ∧ c3step2.2 = [] ∧ c3step3.2 = [] :=
  ⟨rfl, rfl, rfl, rfl⟩

-- =============================================================================
-- C4 — trio count of update_market_structure
-- =============================================================================

/-- The last index of a Range child with the given finite lower bound and a
present upper bound (the entry the overwriting `range_lower_map` retains). -/
def lastRangeAux (lq : ℚ) : List MarketMeta → Nat → Option Nat → Option Nat
  | [], _, acc => acc
  | c :: rest, i, acc =>
      lastRangeAux lq rest (i + 1)
        (if c.kind = MarketKind.Range ∧ c.bounds_lower = some (.fin lq) ∧
            c.bounds_upper.isSome then some i else acc)

def lastRangeChildWithLower (cm : List MarketMeta) (lq : ℚ) : Option Nat :=
  lastRangeAux lq cm 0 none

/-- Tail of the corrected per-pair condition, after extraction of the finite
lower bounds. -/
def pairTail (cm : List MarketMeta) (lower upper : MarketMeta) (lq uq : ℚ) : Bool :=
  match lastRangeChildWithLower cm lq with
  | some ci =>
      optFBeq (cm.getD ci mmDummy).bounds_upper (some (.fin uq))
        && !(lower.yes_token.isEmpty || upper.no_token.isEmpty
          || (cm.getD ci mmDummy).no_token.isEmpty)
  | none => false

/-- The corrected per-pair condition: both parents `Above` with finite lower
bounds; the LAST discovered range child with matching lower bound must have
upper bound equal to the upper parent's lower bound; the three triangle leg
tokens must be non-empty. -/
def pairConnectsMeta (cm : List MarketMeta) (lower upper : MarketMeta) : Bool :=
  if lower.kind = MarketKind.Above ∧ upper.kind = MarketKind.Above then
    match lower.bounds_lower, upper.bounds_lower with
    | some (.fin lq), some (.fin uq) => pairTail cm lower upper lq uq
    | _, _ => false
  else false

/-- Number of adjacent parent pairs satisfying the corrected condition. -/
def countPairs (cm pm : List MarketMeta) : Nat :=
  ((List.range (pm.length - 1)).filter fun i =>
    pairConnectsMeta cm (pm.getD i mmDummy) (pm.getD (i + 1) mmDummy)).length

/-- The (slot-free) meta a two-token descriptor yields. -/
def descMeta (m : MarketDescriptorInput) : MarketMeta :=
  ⟨m.market_id, m.slug, m.clob_token_ids.getD 0 "", m.clob_token_ids.getD 1 "",
   m.bounds_lower, m.bounds_upper, MarketKind.from_str m.kind, m.neg_risk, 0, 0⟩

/-- Zero out the price-table slots of a meta (the only fields that depend on
the allocation state). -/
def strip (m : MarketMeta) : MarketMeta := { m with yes_slot := 0, no_slot := 0 }

/-- The corrected per-group trio count, computed directly from the group's
descriptors. -/
def amendedTrioCount (g : RangeGroupInput) : Nat :=
  countPairs
    ((g.children.filter fun m => decide (2 ≤ m.clob_token_ids.length)).map descMeta)
    ((g.parents.filter fun m => decide (2 ≤ m.clob_token_ids.length)).map descMeta)

theorem lookupA_insertA {κ α : Type} [DecidableEq κ] (l : List (κ × α)) (k k' : κ)
    (v : α) : lookupA (insertA l k v) k' = if k = k' then some v else lookupA l k' := by
  induction l with
  | nil => rfl
  | cons p rest ih =>
      obtain ⟨k0, w⟩ := p
      by_cases h : k0 = k
      · subst h
        by_cases h2 : k0 = k' <;> simp [insertA, lookupA, h2]
      · by_cases h' : k0 = k'
        · subst h'
          simp [insertA, h, lookupA, Ne.symm h]
        · simp [insertA, h, lookupA, h', ih]

theorem lookupA_rangeLowerMapAux (lq : ℚ) (cm : List MarketMeta) :
    ∀ (i : Nat) (m : List (ℚ × Nat)),
      lookupA (rangeLowerMapAux cm i m) lq = lastRangeAux lq cm i (lookupA m lq) := by
  induction cm with
  | nil => intro i m; rfl
  | cons c rest ih =>
      intro i m
      simp only [rangeLowerMapAux, lastRangeAux]
      rw [ih]
      congr 1
      by_cases hk : c.kind = MarketKind.Range
      · cases hbl : c.bounds_lower with
        | none => simp [hk, hbl]
        | some lb =>
            cases hbu : c.bounds_upper with
            | none => simp [hk, hbl, hbu]
            | some ub =>
                cases lb with
                | nan => simp [hk, hbl, hbu]
                | inf s => simp [hk, hbl, hbu]
                | fin q =>
                    simp [hk, hbl, hbu, lookupA_insertA]
      · simp [hk]

theorem lookupA_range_lower_map (cm : List MarketMeta) (lq : ℚ) :
    lookupA (range_lower_map cm) lq = lastRangeChildWithLower cm lq := by
  unfold range_lower_map lastRangeChildWithLower
  rw [lookupA_rangeLowerMapAux]
  rfl

theorem getD_map_strip (l : List MarketMeta) (i : Nat) :
    (l.map strip).getD i mmDummy = strip (l.getD i mmDummy) := by
  induction l generalizing i with
  | nil => cases i <;> rfl
  | cons a t ih =>
      cases i with
      | zero => rfl
      | succ n => simpa using ih n

theorem lastRangeAux_map_strip (lq : ℚ) (cm : List MarketMeta) :
    ∀ (i : Nat) (acc : Option Nat),
      lastRangeAux lq (cm.map strip) i acc = lastRangeAux lq cm i acc := by
  induction cm with
  | nil => intro i acc; rfl
  | cons c rest ih =>
      intro i acc
      simp only [List.map_cons, lastRangeAux]
      exact ih _ _

theorem lastRangeChildWithLower_map_strip (cm : List MarketMeta) (lq : ℚ) :
    lastRangeChildWithLower (cm.map strip) lq = lastRangeChildWithLower cm lq :=
  lastRangeAux_map_strip lq cm 0 none

theorem pairTail_map_strip (cm : List MarketMeta) (a b : MarketMeta) (lq uq : ℚ) :
    pairTail (cm.map strip) a b lq uq = pairTail cm a b lq uq := by
  unfold pairTail
  rw [lastRangeChildWithLower_map_strip]
  cases hlr : lastRangeChildWithLower cm lq with
  | none => rfl
  | some ci =>
      show (optFBeq ((cm.map strip).getD ci mmDummy).bounds_upper (some (.fin uq))
          && !(a.yes_token.isEmpty || b.no_token.isEmpty
            || ((cm.map strip).getD ci mmDummy).no_token.isEmpty)) =
        (optFBeq (cm.getD ci mmDummy).bounds_upper (some (.fin uq))
          && !(a.yes_token.isEmpty || b.no_token.isEmpty
            || (cm.getD ci mmDummy).no_token.isEmpty))
      rw [getD_map_strip cm ci]
      exact rfl

theorem pairConnectsMeta_map_strip (cm : List MarketMeta) (a b : MarketMeta) :
    pairConnectsMeta (cm.map strip) a b = pairConnectsMeta cm a b := by
  unfold pairConnectsMeta
  by_cases hk : a.kind = MarketKind.Above ∧ b.kind = MarketKind.Above
  · rw [if_pos hk, if_pos hk]
    cases hbl : a.bounds_lower with
    | none => rfl
    | some lb =>
        cases lb with
        | nan => rfl
        | inf s => rfl
        | fin lq =>
            cases hbu : b.bounds_lower with
            | none => rfl
            | some ub =>
                cases ub with
                | nan => rfl
                | inf s => rfl
                | fin uq => exact pairTail_map_strip cm a b lq uq
  · rw [if_neg hk, if_neg hk]

theorem countPairs_map_strip (cm pm : List MarketMeta) :
    countPairs (cm.map strip) (pm.map strip) = countPairs cm pm := by
  unfold countPairs
  rw [List.length_map]
  congr 1
  refine List.filter_congr fun i _ => ?_
  rw [getD_map_strip pm i, getD_map_strip pm (i + 1)]
  calc pairConnectsMeta (cm.map strip) (strip (pm.getD i mmDummy))
        (strip (pm.getD (i + 1) mmDummy))
      = pairConnectsMeta (cm.map strip) (pm.getD i mmDummy) (pm.getD (i + 1) mmDummy) := rfl
    _ = pairConnectsMeta cm (pm.getD i mmDummy) (pm.getD (i + 1) mmDummy) :=
      pairConnectsMeta_map_strip cm _ _

theorem buildMetas_strip (ms : List MarketDescriptorInput) : ∀ pt : PriceTable,
    (buildMetas pt ms).2.map strip =
      (ms.filter fun m => decide (2 ≤ m.clob_token_ids.length)).map descMeta := by
  induction ms with
  | nil => intro pt; rfl
  | cons m rest ih =>
      intro pt
      by_cases h : 2 ≤ m.clob_token_ids.length
      · simp only [buildMetas, if_pos h, List.map_cons, List.filter_cons,
          decide_eq_true h, ih]
        rfl
      · simp only [buildMetas, if_neg h, List.filter_cons]
        rw [decide_eq_false h]
        exact ih pt

theorem trioTail_isSome (cm : List MarketMeta) (a b : MarketMeta) (i : Nat) (lq uq : ℚ) :
    (trioTail (range_lower_map cm) cm a b i lq uq).isSome = pairTail cm a b lq uq := by
  unfold trioTail pairTail
  rw [lookupA_range_lower_map]
  cases hlr : lastRangeChildWithLower cm lq with
  | none => rfl
  | some ci =>
      show (if optFBeq (cm.getD ci mmDummy).bounds_upper (some (.fin uq)) then
          if a.yes_token.isEmpty || b.no_token.isEmpty
              || (cm.getD ci mmDummy).no_token.isEmpty then
            none
          else
            some ⟨i, i + 1, ci, a.yes_slot, b.no_slot, (cm.getD ci mmDummy).no_slot,
              a.yes_token, b.no_token, (cm.getD ci mmDummy).no_token, 0, 0, 0⟩
        else (none : Option TrioState)).isSome =
        (optFBeq (cm.getD ci mmDummy).bounds_upper (some (.fin uq))
          && !(a.yes_token.isEmpty || b.no_token.isEmpty
            || (cm.getD ci mmDummy).no_token.isEmpty))
      by_cases ho : optFBeq (cm.getD ci mmDummy).bounds_upper (some (.fin uq)) = true
      · rw [if_pos ho, ho, Bool.true_and]
        by_cases he : (a.yes_token.isEmpty || b.no_token.isEmpty
            || (cm.getD ci mmDummy).no_token.isEmpty) = true
        · rw [if_pos he, he]
          rfl
        · rw [if_neg he]
          rw [Bool.not_eq_true] at he
          rw [he]
          rfl
      · rw [if_neg ho]
        rw [Bool.not_eq_true] at ho
        rw [ho, Bool.false_and]
        rfl

theorem trioForPair_isSome (cm pm : List MarketMeta) (i : Nat) :
    (trioForPair (range_lower_map cm) cm pm i).isSome =
      pairConnectsMeta cm (pm.getD i mmDummy) (pm.getD (i + 1) mmDummy) := by
  simp only [trioForPair, pairConnectsMeta]
  by_cases hk : (pm.getD i mmDummy).kind = MarketKind.Above ∧
      (pm.getD (i + 1) mmDummy).kind = MarketKind.Above
  · rw [if_pos hk, if_pos hk]
    cases hbl : (pm.getD i mmDummy).bounds_lower with
    | none => rfl
    | some lb =>
        cases lb with
        | nan => rfl
        | inf s => rfl
        | fin lq =>
            cases hbu : (pm.getD (i + 1) mmDummy).bounds_lower with
            | none => rfl
            | some ub =>
                cases ub with
                | nan => rfl
                | inf s => rfl
                | fin uq =>
                    exact trioTail_isSome cm (pm.getD i mmDummy)
                      (pm.getD (i + 1) mmDummy) i lq uq
  · rw [if_neg hk, if_neg hk]
    rfl

theorem trioBuildLoop_length (cm pm : List MarketMeta) (idxs : List Nat) :
    ∀ (trios : List TrioState) (lookup : List (String × List Nat)),
      (trioBuildLoop cm pm idxs trios lookup).1.length =
        trios.length + (idxs.filter fun i =>
          (trioForPair (range_lower_map cm) cm pm i).isSome).length := by
  induction idxs with
  | nil => intro trios lookup; simp [trioBuildLoop]
  | cons i rest ih =>
      intro trios lookup
      simp only [trioBuildLoop]
      cases hfp : trioForPair (range_lower_map cm) cm pm i with
      | none => simp [ih, List.filter_cons, hfp]
      | some trio =>
          simp [ih, List.filter_cons, hfp]
          omega

theorem init_trio_states_length (cm pm : List MarketMeta) :
    (init_trio_states cm pm).1.length = countPairs cm pm := by
  unfold init_trio_states countPairs
  rw [trioBuildLoop_length]
  simp only [List.length_nil, Nat.zero_add]
  congr 1
  exact List.filter_congr fun i _ => trioForPair_isSome cm pm i

theorem umsLoop_count (gs : List RangeGroupInput) :
    ∀ (st : EngineState) (gi : Nat) (total : Int),
      (umsLoop st gs gi total).2 =
        total + (gs.map fun g => (amendedTrioCount g : Int)).sum := by
  induction gs with
  | nil => intro st gi total; simp [umsLoop]
  | cons g rest ih =>
      intro st gi total
      simp only [umsLoop]
      rw [ih]
      have hg : ((init_trio_states (buildMetas st.price_table g.children).2
          (buildMetas (buildMetas st.price_table g.children).1 g.parents).2).1.length : Int)
          = (amendedTrioCount g : Int) := by
        rw [init_trio_states_length, ← countPairs_map_strip, buildMetas_strip,
          buildMetas_strip]
        rfl
      rw [hg]
      simp only [List.map_cons, List.sum_cons]
      ring

/-- C4 amended (code behavior): `update_market_structure` returns the sum
over groups of the number of adjacent parent pairs (kind Above, finite lower
bounds, among descriptors with two token ids) for which the LAST discovered
range child with matching lower bound — HashMap inserts overwrite, so later
children shadow earlier ones — has upper bound equal to the upper parent's
lower bound and the three triangle leg tokens are non-empty. -/
theorem c4_trio_count_amended (st : EngineState) (gs : List RangeGroupInput) :
    (update_market_structure st gs).2 =
      (gs.map fun g => (amendedTrioCount g : Int)).sum := by
  unfold update_market_structure
  rw [umsLoop_count]
  simp

/-- A group with two range children sharing lower bound 2800: the first
(2800-2900) connects the pair, the second (2800-3000) does not. -/
def gDup : RangeGroupInput :=
  { group_key := "g", event_slug := "e", crypto := "ETH",
    children := [⟨"r1", "r1", ["r1_yes", "r1_no"], some (.fin 2800), some (.fin 2900),
        "range", false⟩,
      ⟨"r2", "r2", ["r2_yes", "r2_no"], some (.fin 2800), some (.fin 3000),
        "range", false⟩],
    parents := [⟨"p1", "p1", ["p1_yes", "p1_no"], some (.fin 2800), none, "above", false⟩,
      ⟨"p2", "p2", ["p2_yes", "p2_no"], some (.fin 2900), none, "above", false⟩] }

/-- Whether a descriptor has a finite lower bound. -/
def descFiniteLower (m : MarketDescriptorInput) : Bool :=
  match m.bounds_lower with
  | some (.fin _) => true
  | _ => false

/-- The count the CLAIM asserts (formalized from its words): adjacent parent
pairs with kind Above and finite lower bounds having SOME connecting range
child with `child.lower == P_lo.lower` and `child.upper == P_hi.lower`. -/
def claimTrioCount (g : RangeGroupInput) : Nat :=
  ((List.range (g.parents.length - 1)).filter fun i =>
    let lower := g.parents.getD i descDummy
    let upper := g.parents.getD (i + 1) descDummy
    decide (MarketKind.from_str lower.kind = MarketKind.Above)
      && decide (MarketKind.from_str upper.kind = MarketKind.Above)
      && descFiniteLower lower && descFiniteLower upper
      && g.children.any fun c =>
          decide (MarketKind.from_str c.kind = MarketKind.Range)
            && optFBeq c.bounds_lower lower.bounds_lower
            && optFBeq c.bounds_upper upper.bounds_lower).length

/-- C4 counterexample: on `gDup` the pair (Above 2800, Above 2900) has a
connecting range child (the first, 2800-2900), so the claim predicts 1 trio;
but the builder's overwriting map retains the LAST child with lower 2800
(2800-3000), whose upper bound does not match, so `update_market_structure`
returns 0 — the first-discovered child does NOT win and the claimed count
equality fails. -/
theorem c4_counterexample :
    (update_market_structure (EngineState.new engineCfgC3) [gDup]).2 = 0 ∧
    claimTrioCount gDup = 1 :=
  ⟨rfl, rfl⟩

-- =============================================================================
-- C6 counterexample — the literal cooldown condition omits `last > 0`
-- =============================================================================

/-- A signal whose strategy is the triangle but with no quotes: it yields no
order candidates. -/
def sigNoCandidates : ArbSignal :=
  ⟨"g", "e", "c", "POLYMARKET_TRIANGLE_BUY", .fin 0, .fin 0, 0,
   "pa", "ps", none, none, none, none, false,
   "pua", "pus", none, none, none, none, false,
   "ca", "cs", none, none, none, none, false, 0,
   .fin 0, .fin 0, none, none, none, none, none, none, none, none, "r"⟩

/-- Trading enabled, not submitting, never executed (`last_executed_at = 0`),
ample balance. -/
def valStateC6 : ValidationState := ⟨.fin 1000000, true, false, 0, []⟩

def cfgExecC6 : ExecutorConfig := ⟨.fin 0, .fin 10, false, 10, "m", "s"⟩

/-- C6 counterexample: at `now_ms = 0` with `last_executed_at = 0` and
`opportunity_timeout_ms = 10`, the claim's literal cooldown condition
`now - last_executed_at < opportunity_timeout_ms` holds (and the two earlier
gates pass), yet `should_skip` does NOT return `CooldownActive` — the code
additionally requires `last_executed_at > 0` — and instead falls through to
`NoCandidates`. -/
theorem c6_counterexample :
    should_skip sigNoCandidates valStateC6 cfgExecC6 0 =
      .error SkipReason.NoCandidates ∧
    0 - valStateC6.last_executed_at < cfgExecC6.opportunity_timeout_ms ∧
    valStateC6.trading_enabled = true ∧ valStateC6.is_submitting = false :=
  ⟨rfl, by decide, rfl, rfl⟩
